import Mathlib

/-!
Verification of the authentication/authorization middleware chain
(`src/middlewares/authMiddleware.js`) of this repository: token extraction,
token verification, principal lookup and attachment, and the role gates
`requireAdmin` and `requireRoles`.

The middleware is embedded shallowly:
* JavaScript primitive values that can appear as principal attributes or
  rule elements are modelled by `JSValue` (objects/arrays are not needed by
  any gate decision modelled here);
* a principal (the user record attached to the request) is an association
  list of named `JSValue` attributes;
* the collaborators `verify` (from `jwtService.js`, which may throw) and the
  user lookup (which may throw, or resolve to `null`) are parameters of the
  embedded middleware, modelled with `Except`/`Option`;
* calling `next()` and sending a response are observable events; a run of
  `authenticateToken` produces the list of events it emits, so "exactly one
  terminal decision" is a statement about that list.
-/

namespace AuthMW

/-- Decidable equality for `Except`, needed to evaluate concrete runs of
the embedded collaborators. -/
instance {e a : Type} [DecidableEq e] [DecidableEq a] :
    DecidableEq (Except e a) := fun x y =>
  match x, y with
  | .error u, .error v =>
    if h : u = v then .isTrue (by rw [h]) else .isFalse (by simp [h])
  | .error _, .ok _ => .isFalse (by simp)
  | .ok _, .error _ => .isFalse (by simp)
  | .ok u, .ok v =>
    if h : u = v then .isTrue (by rw [h]) else .isFalse (by simp [h])

/-- JavaScript primitive values as they can occur in principal attributes,
token claims and role-rule lists. -/
inductive JSValue where
  | vUndefined : JSValue
  | vNull : JSValue
  | vBool : Bool → JSValue
  | vNum : Int → JSValue
  | vStr : String → JSValue
deriving DecidableEq, Repr

/-- JavaScript truthiness of a primitive value: `undefined`, `null`,
`false`, `0` and `""` are falsy, everything else is truthy. -/
def truthy : JSValue → Bool
  | .vUndefined => false
  | .vNull => false
  | .vBool b => b
  | .vNum n => n != 0
  | .vStr s => s != ""

/-- A principal (user record) attached to a request: named attributes.
Property access `user[name]` on a missing attribute yields `undefined`. -/
abbrev Principal := List (String × JSValue)

/-- JavaScript property access `u[name]`: the first binding of `name`,
or `undefined` when absent. -/
def getField (u : Principal) (name : String) : JSValue :=
  match u.lookup name with
  | some v => v
  | none => .vUndefined

/-- The decoded token payload, as produced by `jwtService.verify` and signed
by `userService.generateToken` (`{ userId, username, email }`). Only
`userId` is read by the middleware. -/
structure Claims where
  userId : JSValue
  username : String
  email : String
deriving DecidableEq, Repr

/-- Observable events of one `authenticateToken` run: the downstream
handler being invoked (with the attached principal), or a JSON response
`{ success, error }` sent with a status code. -/
inductive Event where
  | nextCalled : Principal → Event
  | sent : Nat → Bool → String → Event
deriving DecidableEq, Repr

/-- JavaScript `String.prototype.split` with a one-character separator,
on the character list: splits at every occurrence of the separator and
keeps empty segments, and `"".split(sep)` is `[""]`. -/
def splitChars (sep : Char) : List Char → List (List Char)
  | [] => [[]]
  | c :: cs =>
    if c = sep then [] :: splitChars sep cs
    else
      match splitChars sep cs with
      | [] => [[c]]
      | w :: ws => (c :: w) :: ws

/-- JavaScript `s.split(sep)` for a one-character separator. -/
def jsSplit (sep : Char) (s : String) : List String :=
  (splitChars sep s.data).map (fun cs => String.mk cs)

/-- Token extraction from `authenticateToken`:
`const token = authHeader && authHeader.split(' ')[1]`.
A missing header, a header with no second space-separated segment, and an
empty second segment all make `token` falsy (the subsequent `if (!token)`
fires); otherwise the second segment is the token, whatever the first
segment (the scheme word) was. -/
def extractToken (authHeader : Option String) : Option String :=
  match authHeader with
  | none => none
  | some h =>
    match (jsSplit ' ' h).get? 1 with
    | none => none
    | some t => if t = "" then none else some t

/-- `authenticateToken(req, res, next)` from `authMiddleware.js`, as the
list of events it emits. `verify` is the JWT verification collaborator
(`Except.error` models a thrown exception); `getUser` is the
`getUserById` collaborator (`Except.error` models a thrown exception,
`Except.ok none` a `null` lookup result). The surrounding `try/catch`
turns any thrown exception into the 403 `Invalid or expired token`
response. -/
def authenticateToken (verify : String → Except Unit Claims)
    (getUser : JSValue → Except Unit (Option Principal))
    (authHeader : Option String) : List Event :=
  match extractToken authHeader with
  | none => [.sent 401 false "Access token required"]
  | some token =>
    match verify token with
    | .error _ => [.sent 403 false "Invalid or expired token"]
    | .ok decoded =>
      match getUser decoded.userId with
      | .error _ => [.sent 403 false "Invalid or expired token"]
      | .ok none => [.sent 401 false "Invalid token - user not found"]
      | .ok (some user) => [.nextCalled user]

/-- Modelled from the spec: the mongoose projection `.select('-password')`
used by `userService.getUserById` (the `User` model and the mongoose
library are outside the sources under `src/`). Per the spec the lookup
"excludes the password/secret field unconditionally": the projection drops
every attribute with the given name from the fetched record. -/
def selectMinus (field : String) (u : Principal) : Principal :=
  u.filter (fun p => p.1 != field)

/-- `userService.getUserById(id)`: fetch the user by id with the password
field excluded (`User.findById(id).select('-password')`), `null` when the
store has no such id. `findById` is the underlying store lookup. -/
def getUserById (findById : JSValue → Option Principal) (id : JSValue) :
    Option Principal :=
  (findById id).map (selectMinus "password")

/-- `authenticateToken` composed with the real `getUserById` collaborator
(the wiring in `authMiddleware.js`), over an abstract user store. -/
def authGate (verify : String → Except Unit Claims)
    (findById : JSValue → Option Principal)
    (authHeader : Option String) : List Event :=
  authenticateToken verify (fun id => .ok (getUserById findById id)) authHeader

/-- The single decision of a role gate (`requireAdmin` or a gate returned
by `requireRoles`): pass control downstream, or send a JSON response
`{ success, error }` with a status code. -/
inductive GateResult where
  | next : GateResult
  | sent : Nat → Bool → String → GateResult
deriving DecidableEq, Repr

/-- `requireAdmin(req, res, next)` from `authMiddleware.js`. `user` is
`req.user` (`none` when no principal was attached). The admin check is
`if (!req.user.isAdmin)`: a truthiness test of the `isAdmin` attribute. -/
def requireAdmin (user : Option Principal) : GateResult :=
  match user with
  | none => .sent 401 false "Authentication required"
  | some u =>
    if truthy (getField u "isAdmin") then .next
    else .sent 403 false "Admin access required"

/-- An element of the `roles` array passed to `requireRoles`: dispatch is
by `typeof` — a function (a predicate on the principal, carrying its JS
source text for `Array.prototype.join`), a string (an attribute name), or
any other value. -/
inductive Rule where
  | fn : (Principal → Bool) → String → Rule
  | str : String → Rule
  | other : JSValue → Rule

/-- The `roles.some(...)` callback body of `requireRoles`: a function rule
is called with the user, a string rule checks `req.user[role] === true`
(strict equality to `true`), anything else returns `false`. -/
def ruleMatches (u : Principal) : Rule → Bool
  | .fn pred _ => pred u
  | .str name => getField u name == JSValue.vBool true
  | .other _ => false

/-- The string `Array.prototype.join` uses for one rule: a string rule is
itself, a function stringifies to its source text, `null`/`undefined`
stringify to the empty string, other primitives to their usual rendering. -/
def ruleJoinStr : Rule → String
  | .fn _ src => src
  | .str name => name
  | .other v =>
    match v with
    | .vUndefined => ""
    | .vNull => ""
    | .vBool b => if b then "true" else "false"
    | .vNum n => toString n
    | .vStr s => s

/-- `roles.join(', ')` from the rejection message of `requireRoles`. -/
def rolesJoin (roles : List Rule) : String :=
  String.intercalate ", " (roles.map ruleJoinStr)

/-- The middleware returned by `requireRoles(roles)` from
`authMiddleware.js`: 401 without a principal, otherwise pass iff
`roles.some(...)` finds a matching rule, else 403 listing the rules. -/
def requireRoles (roles : List Rule) (user : Option Principal) : GateResult :=
  match user with
  | none => .sent 401 false "Authentication required"
  | some u =>
    if roles.any (ruleMatches u) then .next
    else .sent 403 false
      ("Insufficient permissions. Required role(s): " ++ rolesJoin roles)

/-- A sample verification collaborator: accepts exactly the token `tok`,
decoding it to user id 1; throws on everything else. -/
def demoVerify : String → Except Unit Claims := fun t =>
  if t = "tok" then .ok (Claims.mk (JSValue.vNum 1) "alice" "a@x")
  else .error ()

/-- A sample verification collaborator: accepts every token, decoding it
to user id 42. -/
def demoVerify42 : String → Except Unit Claims := fun _ =>
  .ok (Claims.mk (JSValue.vNum 42) "ghost" "g@x")

/-- The stored record of the sample user store's only user, carrying a
password hash. -/
def demoUser : Principal :=
  [("username", JSValue.vStr "alice"), ("password", JSValue.vStr "hash")]

/-- A sample user store holding exactly one user, with id 1. -/
def demoStore : JSValue → Option Principal := fun id =>
  if id = JSValue.vNum 1 then some demoUser else none

end AuthMW

namespace AuthMW

/-- With a principal attached, the gate returned by `requireRoles` reduces
to its pass/reject conditional. -/
theorem requireRoles_some (roles : List Rule) (u : Principal) :
    requireRoles roles (some u)
      = (if roles.any (ruleMatches u) then GateResult.next
         else GateResult.sent 403 false
           ("Insufficient permissions. Required role(s): "
             ++ rolesJoin roles)) := rfl

/-- Any entry named `field` is gone after the `select('-' + field)`
projection, so looking `field` up in the projected record yields nothing. -/
theorem lookup_selectMinus (field : String) (u : Principal) :
    (selectMinus field u).lookup field = none := by
  induction u with
  | nil => rfl
  | cons p rest ih =>
    by_cases h : p.1 = field
    · simpa [selectMinus, List.filter_cons, h] using ih
    · have hbeq : (field == p.1) = false := by
        rw [beq_eq_false_iff_ne]
        exact fun hc => h hc.symm
      simpa [selectMinus, List.filter_cons, h, List.lookup, hbeq] using ih

/-- C1 (counterexample): the header `Authorization: Token abc123` does not
short-circuit with 401 `Access token required` — split-by-space extracts
`abc123` as the token, which proceeds to verification; with a verifier
that rejects it, the response is 403 `Invalid or expired token`. -/
theorem C1_counterexample :
    authenticateToken (fun _ => Except.error ()) (fun _ => Except.ok none)
        (some "Token abc123")
      = [Event.sent 403 false "Invalid or expired token"] ∧
    authenticateToken (fun _ => Except.error ()) (fun _ => Except.ok none)
        (some "Token abc123")
      ≠ [Event.sent 401 false "Access token required"] := by
  constructor <;> decide

/-- C1 (amended): `authenticateToken` rejects with 401
`Access token required` exactly when token extraction yields nothing —
the header is missing, or splitting it on spaces leaves no non-empty
second segment. A non-`Bearer` scheme followed by a token word is not
rejected at this step: its second word is extracted as the token and
passed on to verification. -/
theorem C1_amended (verify : String → Except Unit Claims)
    (getUser : JSValue → Except Unit (Option Principal))
    (authHeader : Option String) :
    authenticateToken verify getUser authHeader
        = [Event.sent 401 false "Access token required"]
      ↔ extractToken authHeader = none := by
  unfold authenticateToken
  cases h : extractToken authHeader with
  | none => simp
  | some token =>
    rcases hv : verify token with e | decoded
    · simp [h, hv]
    · rcases hg : getUser decoded.userId with e | ou
      · simp [h, hv, hg]
      · cases ou <;> simp [h, hv, hg]

/-- C2 (counterexample): a principal whose `isAdmin` attribute is the
number `1` — not strictly `true` — passes `requireAdmin` (the code tests
truthiness, `!req.user.isAdmin`, not strict equality), contradicting the
claim that such a principal is rejected with 403. -/
theorem C2_counterexample :
    requireAdmin (some [("isAdmin", JSValue.vNum 1)]) = GateResult.next := by
  decide

/-- C2 (amended): with a principal attached, `requireAdmin` passes iff the
principal's `isAdmin` attribute is truthy; whenever `isAdmin` is falsy
(`false`, `0`, `""`, `null`, `undefined`, or absent) it responds 403
`{ success: false, error: 'Admin access required' }`. -/
theorem C2_amended (u : Principal) :
    (requireAdmin (some u) = GateResult.next
      ↔ truthy (getField u "isAdmin") = true) ∧
    requireAdmin (some u)
      = (if truthy (getField u "isAdmin") then GateResult.next
         else GateResult.sent 403 false "Admin access required") := by
  unfold requireAdmin
  by_cases h : truthy (getField u "isAdmin") <;> simp [h]

/-- C3: whenever the extracted token verifies and the claims' user id is in
the store, `authenticateToken` wired to `getUserById` emits exactly one
event — `next` with the fetched principal attached — and that attached
principal has no `password` attribute. -/
theorem C3_attach_no_password (verify : String → Except Unit Claims)
    (findById : JSValue → Option Principal) (authHeader : Option String)
    (token : String) (claims : Claims) (stored : Principal)
    (hTok : extractToken authHeader = some token)
    (hVer : verify token = Except.ok claims)
    (hFind : findById claims.userId = some stored) :
    authGate verify findById authHeader
      = [Event.nextCalled (selectMinus "password" stored)] ∧
    (selectMinus "password" stored).lookup "password" = none := by
  refine ⟨?_, lookup_selectMinus _ _⟩
  unfold authGate authenticateToken
  simp [hTok, hVer, getUserById, hFind]

/-- C3 (witness): a concrete run — header `Bearer tok`, a verifier
accepting `tok` with user id 1, a store holding user 1 with a password
field — attaches the password-free principal and calls `next` once. -/
theorem C3_witness :
    extractToken (some "Bearer tok") = some "tok" ∧
    demoVerify "tok" = Except.ok (Claims.mk (JSValue.vNum 1) "alice" "a@x") ∧
    demoStore (Claims.mk (JSValue.vNum 1) "alice" "a@x").userId
      = some demoUser ∧
    (authGate demoVerify demoStore (some "Bearer tok")
        = [Event.nextCalled (selectMinus "password" demoUser)] ∧
      (selectMinus "password" demoUser).lookup "password" = none) :=
  ⟨by decide, by decide, by decide,
    C3_attach_no_password demoVerify demoStore (some "Bearer tok") "tok"
      (Claims.mk (JSValue.vNum 1) "alice" "a@x") demoUser
      (by decide) (by decide) (by decide)⟩

/-- C4: whenever verification of the extracted token fails (the collaborator
throws — bad signature, expired, malformed), the `try/catch` normalizes the
run to the single response 403
`{ success: false, error: 'Invalid or expired token' }`; no fault
propagates. -/
theorem C4_verify_failure (verify : String → Except Unit Claims)
    (getUser : JSValue → Except Unit (Option Principal))
    (authHeader : Option String) (token : String)
    (hTok : extractToken authHeader = some token)
    (hVer : verify token = Except.error ()) :
    authenticateToken verify getUser authHeader
      = [Event.sent 403 false "Invalid or expired token"] := by
  unfold authenticateToken
  simp [hTok, hVer]

/-- C4 (witness): a concrete run — header `Bearer bad` and a verifier that
throws on `bad` — yields exactly the 403 `Invalid or expired token`
response. -/
theorem C4_witness :
    extractToken (some "Bearer bad") = some "bad" ∧
    demoVerify "bad" = Except.error () ∧
    authenticateToken demoVerify
        (fun id => Except.ok (getUserById demoStore id)) (some "Bearer bad")
      = [Event.sent 403 false "Invalid or expired token"] :=
  ⟨by decide, by decide,
    C4_verify_failure demoVerify
      (fun id => Except.ok (getUserById demoStore id)) (some "Bearer bad")
      "bad" (by decide) (by decide)⟩

/-- C5: whenever the token verifies but the claims' user id resolves to no
stored user (`null` lookup), the run is the single response 401
`{ success: false, error: 'Invalid token - user not found' }`; the
downstream handler is not invoked. -/
theorem C5_unknown_principal (verify : String → Except Unit Claims)
    (getUser : JSValue → Except Unit (Option Principal))
    (authHeader : Option String) (token : String) (claims : Claims)
    (hTok : extractToken authHeader = some token)
    (hVer : verify token = Except.ok claims)
    (hGet : getUser claims.userId = Except.ok none) :
    authenticateToken verify getUser authHeader
      = [Event.sent 401 false "Invalid token - user not found"] := by
  unfold authenticateToken
  simp [hTok, hVer, hGet]

/-- C5 (witness): a token decoding to user id 42 against a store with no
id 42 yields exactly the 401 `Invalid token - user not found` response. -/
theorem C5_witness :
    extractToken (some "Bearer t42") = some "t42" ∧
    demoVerify42 "t42" = Except.ok (Claims.mk (JSValue.vNum 42) "ghost" "g@x") ∧
    (fun id => Except.ok (getUserById demoStore id))
        (Claims.mk (JSValue.vNum 42) "ghost" "g@x").userId
      = (Except.ok none : Except Unit (Option Principal)) ∧
    authenticateToken demoVerify42
        (fun id => Except.ok (getUserById demoStore id)) (some "Bearer t42")
      = [Event.sent 401 false "Invalid token - user not found"] :=
  ⟨by decide, by decide, by decide,
    C5_unknown_principal demoVerify42
      (fun id => Except.ok (getUserById demoStore id)) (some "Bearer t42")
      "t42" (Claims.mk (JSValue.vNum 42) "ghost" "g@x")
      (by decide) (by decide) (by decide)⟩

/-- C6: with a principal attached, the gate returned by `requireRoles`
passes iff some rule in the list matches (`roles.some`, an OR in list
order: a string rule matches iff the named attribute is strictly `true`,
a function rule iff the predicate returns `true`); when no rule matches it
responds 403 with the message listing the joined rule list. -/
theorem C6_any_rule (roles : List Rule) (u : Principal) :
    (requireRoles roles (some u) = GateResult.next
      ↔ roles.any (ruleMatches u) = true) ∧
    (roles.any (ruleMatches u) = false →
      requireRoles roles (some u)
        = GateResult.sent 403 false
            ("Insufficient permissions. Required role(s): "
              ++ rolesJoin roles)) := by
  unfold requireRoles
  by_cases h : roles.any (ruleMatches u) <;> simp [h]

/-- C6 (witness): against the empty principal, the single string rule
`isAdmin` does not match, and the gate responds 403 listing `isAdmin`. -/
theorem C6_witness :
    [Rule.str "isAdmin"].any (ruleMatches ([] : Principal)) = false ∧
    requireRoles [Rule.str "isAdmin"] (some ([] : Principal))
      = GateResult.sent 403 false
          ("Insufficient permissions. Required role(s): "
            ++ rolesJoin [Rule.str "isAdmin"]) :=
  ⟨by decide, (C6_any_rule [Rule.str "isAdmin"] ([] : Principal)).2 (by decide)⟩

/-- C7: every run of `authenticateToken` emits exactly one event — either a
single `next` call with the attached principal, or a single structured
rejection `{ success: false, error: ... }` — never both, never neither. -/
theorem C7_one_decision (verify : String → Except Unit Claims)
    (getUser : JSValue → Except Unit (Option Principal))
    (authHeader : Option String) :
    (∃ u, authenticateToken verify getUser authHeader
        = [Event.nextCalled u]) ∨
    (∃ status msg, authenticateToken verify getUser authHeader
        = [Event.sent status false msg]) := by
  rcases h : extractToken authHeader with _ | token
  · exact Or.inr ⟨401, "Access token required", by
      unfold authenticateToken; simp [h]⟩
  · rcases hv : verify token with e | decoded
    · exact Or.inr ⟨403, "Invalid or expired token", by
        unfold authenticateToken; simp [h, hv]⟩
    · rcases hg : getUser decoded.userId with e | ou
      · exact Or.inr ⟨403, "Invalid or expired token", by
          unfold authenticateToken; simp [h, hv, hg]⟩
      · rcases ou with _ | u
        · exact Or.inr ⟨401, "Invalid token - user not found", by
            unfold authenticateToken; simp [h, hv, hg]⟩
        · exact Or.inl ⟨u, by unfold authenticateToken; simp [h, hv, hg]⟩

/-- C8: with no principal attached, `requireAdmin` and every gate returned
by `requireRoles` respond 401
`{ success: false, error: 'Authentication required' }` without evaluating
any rule. -/
theorem C8_no_principal :
    requireAdmin none
      = GateResult.sent 401 false "Authentication required" ∧
    ∀ roles : List Rule,
      requireRoles roles none
        = GateResult.sent 401 false "Authentication required" :=
  ⟨rfl, fun _ => rfl⟩

/-- C9: the gate returned by `requireRoles([])` rejects every attached
principal with 403 — `[].some(...)` is `false`, so no principal can pass,
and the joined rule list in the message is empty. -/
theorem C9_empty_rules (u : Principal) :
    requireRoles [] (some u)
      = GateResult.sent 403 false
          "Insufficient permissions. Required role(s): " := by
  rw [requireRoles_some]
  have h : ("Insufficient permissions. Required role(s): "
        ++ rolesJoin ([] : List Rule))
      = "Insufficient permissions. Required role(s): " := by decide
  simp [h]

/-- C10: a rule that is neither a string nor a function never matches any
principal — it contributes `false` to the OR, raising no error — so
inserting such a rule anywhere in the list does not change whether the
gate passes. -/
theorem C10_other_rule (u : Principal) (v : JSValue)
    (pre post : List Rule) :
    ruleMatches u (Rule.other v) = false ∧
    ((pre ++ Rule.other v :: post).any (ruleMatches u)
      = (pre ++ post).any (ruleMatches u)) ∧
    (requireRoles (pre ++ Rule.other v :: post) (some u) = GateResult.next
      ↔ requireRoles (pre ++ post) (some u) = GateResult.next) := by
  have key : (pre ++ Rule.other v :: post).any (ruleMatches u)
      = (pre ++ post).any (ruleMatches u) := by
    simp [List.any_append, List.any_cons, ruleMatches]
  refine ⟨rfl, key, ?_⟩
  rw [requireRoles_some, requireRoles_some, key]
  by_cases h : (pre ++ post).any (ruleMatches u) <;> simp [h]

end AuthMW
